import Mathlib

/-!
Verification development for the `Abb133Se/http-server` repository.

The Go sources are shallowly embedded over `List Char` byte streams (each
`Char` stands for one byte; all inputs of interest are in the byte range).
Pure helper functions from the Go standard library (`strings.TrimSpace`,
`strings.Split`, `strings.SplitN`, `strings.ToLower`, `strconv.Atoi`,
`path/filepath.Join`/`Clean`, chunked hex lengths) are translated directly,
restricted to their ASCII behaviour, which is the only behaviour the
theorems exercise.
-/

namespace HttpServer

/-- Byte strings are modelled as lists of characters (one char = one byte). -/
abbrev Bytes := List Char

/-! ### Go `strings` helpers -/

/-- `unicode.IsSpace` restricted to the ASCII whitespace characters
`' '`, `'\t'`, `'\n'`, `'\v'`, `'\f'`, `'\r'` (the cases `strings.TrimSpace`
can meet in the request streams we consider). -/
def goIsSpace (c : Char) : Bool :=
  c = ' ' ∨ c = '\t' ∨ c = '\n' ∨ c = '\x0b' ∨ c = '\x0c' ∨ c = '\r'

/-- Go `strings.TrimSpace`: drop whitespace from both ends. -/
def trimSpace (s : Bytes) : Bytes :=
  ((s.dropWhile goIsSpace).reverse.dropWhile goIsSpace).reverse

/-- Go `strings.Split(s, sep)` for a one-character separator: split on every
occurrence, keeping empty fields. -/
def splitOnChar (sep : Char) : Bytes → List Bytes
  | [] => [[]]
  | c :: rest =>
    let r := splitOnChar sep rest
    if c = sep then [] :: r
    else
      match r with
      | h :: t => (c :: h) :: t
      | [] => [[c]]

/-- Go `strings.SplitN(s, sep, 2)` for a one-character separator: split at
the first occurrence only; `[s]` when the separator does not occur. -/
def splitN2 (sep : Char) : Bytes → List Bytes
  | [] => [[]]
  | c :: rest =>
    if c = sep then [[], rest]
    else
      match splitN2 sep rest with
      | [a] => [c :: a]
      | [a, b] => [c :: a, b]
      | r => r

/-- Go `strings.SplitN(s, sep, 2)` for a multi-character separator: returns
`(before, after)` at the first occurrence of `sep`, `none` if absent. -/
def splitOnceSub (sep : Bytes) : Bytes → Option (Bytes × Bytes)
  | [] => none
  | c :: rest =>
    if sep.isPrefixOf (c :: rest) then some ([], (c :: rest).drop sep.length)
    else
      match splitOnceSub sep rest with
      | none => none
      | some (a, b) => some (c :: a, b)

/-- Go `strings.ToLower` on one ASCII character. -/
def toLowerChar (c : Char) : Char :=
  if 'A' ≤ c ∧ c ≤ 'Z' then Char.ofNat (c.toNat + 32) else c

/-- Go `strings.ToLower` (ASCII). -/
def toLowerStr (s : Bytes) : Bytes := s.map toLowerChar

/-- Go `strings.ToUpper` on one ASCII character. -/
def toUpperChar (c : Char) : Char :=
  if 'a' ≤ c ∧ c ≤ 'z' then Char.ofNat (c.toNat - 32) else c

/-- Go `strings.ToUpper` (ASCII). -/
def toUpperStr (s : Bytes) : Bytes := s.map toUpperChar

/-- Go `strings.Contains(s, string(c))` for a one-character needle. -/
def containsChar (s : Bytes) (c : Char) : Bool := s.any (fun d => d = c)

/-! ### Go `strconv.Atoi` -/

/-- Decimal digit value. -/
def digitVal? (c : Char) : Option Nat :=
  if '0' ≤ c ∧ c ≤ '9' then some (c.toNat - 48) else none

/-- Value of a non-empty all-digit string; `none` otherwise. -/
def digitsVal? (l : Bytes) : Option Nat :=
  if l = [] then none
  else
    l.foldl
      (fun acc c =>
        match acc, digitVal? c with
        | some a, some d => some (10 * a + d)
        | _, _ => none)
      (some 0)

/-- Largest value of Go's 64-bit `int`. -/
def INT64MAX : Int := 9223372036854775807

/-- Go `strconv.Atoi`: optional leading sign, decimal digits, 64-bit range.
Any parse or range failure is `none` (Go returns a non-nil error). -/
def atoi (s : Bytes) : Option Int :=
  match s with
  | '+' :: rest =>
    match digitsVal? rest with
    | some n => if (n : Int) ≤ INT64MAX then some (n : Int) else none
    | none => none
  | '-' :: rest =>
    match digitsVal? rest with
    | some n => if (n : Int) ≤ INT64MAX + 1 then some (-(n : Int)) else none
    | none => none
  | _ =>
    match digitsVal? s with
    | some n => if (n : Int) ≤ INT64MAX then some (n : Int) else none
    | none => none

/-! ### Header maps

Go's `map[string]string` with last-write-wins insertion, embedded as an
association list: insertion replaces the value at an existing key and
appends otherwise. -/

abbrev HeaderMap := List (Bytes × Bytes)

/-- Map lookup (`m[k]` comma-ok form). -/
def mapGet (m : HeaderMap) (k : Bytes) : Option Bytes :=
  match m.find? (fun p => decide (p.1 = k)) with
  | some p => some p.2
  | none => none

/-- Go's zero-value map read `m[k]` (missing key yields `""`). -/
def mapGetD (m : HeaderMap) (k : Bytes) : Bytes := (mapGet m k).getD []

/-- Map assignment `m[k] = v` (replace existing binding, else append). -/
def mapInsert (m : HeaderMap) (k v : Bytes) : HeaderMap :=
  if (mapGet m k).isSome then
    m.map (fun p => if p.1 = k then (k, v) else p)
  else m ++ [(k, v)]

/-! ### Request data model (`internal/server/request.go`) -/

/-- A parsed HTTP request (struct `Request`; the `Params` field is written by
the router's parameterized-route branch). -/
structure Request where
  method : Bytes
  path : Bytes
  version : Bytes
  headers : HeaderMap
  body : Bytes
  params : HeaderMap := []
deriving DecidableEq

/-- `CLRF` constant from the source (the name's transposition is the
source's own). -/
def CLRF : Bytes := ['\r', '\n']

def MaxRequestLineLength : Nat := 4096
def MaxHeaderLineLength : Nat := 8192

/-- `MaxBodySize = 10 << 20` (compared against a Go `int`). -/
def MaxBodySize : Int := 10485760

/-- Classified parse failures. `eofRequestLine`, `headerEOF` and `bodyEOF`
are the error values for which Go's `errors.Is(err, io.EOF)` holds (the
latter two are `%w`-wrapped `io.EOF`); `truncatedBody` is
`io.ErrUnexpectedEOF`, which `errors.Is(·, io.EOF)` does not match. -/
inductive ParseError
  | eofRequestLine
  | requestLineTooLong
  | malformedRequestLine
  | headerEOF
  | headerLineTooLong
  | invalidContentLength
  | bodyTooLarge
  | bodyEOF
  | truncatedBody
deriving DecidableEq

/-- Which parse failures satisfy `errors.Is(err, io.EOF)`. -/
def ParseError.wrapsEOF : ParseError → Bool
  | .eofRequestLine => true
  | .headerEOF => true
  | .bodyEOF => true
  | _ => false

/-- Outcome of `ParseRequest`: a request plus the unconsumed stream, a
classified error, or a runtime panic (`make([]byte, n)` with negative `n`). -/
inductive ParseOutcome
  | ok (req : Request) (rest : Bytes)
  | err (e : ParseError)
  | panics
deriving DecidableEq

/-- `bufio.Reader.ReadString('\n')`: the bytes up to and including the first
`'\n'`, plus the rest of the stream; `none` when the stream ends first (Go
returns the partial data with a non-nil error, and `ParseRequest` fails on
any such error). -/
def readLine : Bytes → Option (Bytes × Bytes)
  | [] => none
  | c :: rest =>
    if c = '\n' then some ([c], rest)
    else
      match readLine rest with
      | none => none
      | some (l, r) => some (c :: l, r)

/-- Request-line phase of `ParseRequest` (part_006 lines 48-68): read one
line, trim, enforce the length cap, split on single spaces into exactly
three tokens. -/
def parseRequestLine (s : Bytes) :
    ParseError ⊕ ((Bytes × Bytes × Bytes) × Bytes) :=
  match readLine s with
  | none => .inl .eofRequestLine
  | some (line, rest) =>
    let rl := trimSpace line
    if rl.length > MaxRequestLineLength then .inl .requestLineTooLong
    else
      match splitOnChar ' ' rl with
      | [m, p, v] => .inr ((m, p, v), rest)
      | _ => .inl .malformedRequestLine

/-- Header phase of `ParseRequest` (part_006 lines 77-101): read lines until
a blank one; enforce the per-line cap; split on the first colon; trim both
sides and lowercase the key before insertion; silently skip colon-less
lines. -/
def parseHeadersFuel (acc : HeaderMap) (s : Bytes) :
    Nat → ParseError ⊕ (HeaderMap × Bytes)
  | 0 => .inl .headerEOF
  | fuel + 1 =>
    match readLine s with
    | none => .inl .headerEOF
    | some (line, rest) =>
      let tl := trimSpace line
      if tl = [] then .inr (acc, rest)
      else if tl.length > MaxHeaderLineLength then .inl .headerLineTooLong
      else
        match splitN2 ':' tl with
        | [k, v] =>
          parseHeadersFuel (mapInsert acc (toLowerStr (trimSpace k)) (trimSpace v))
            rest fuel
        | _ => parseHeadersFuel acc rest fuel

/-- The header loop runs on `s.length + 1` fuel: every successful
`readLine` consumes at least the terminating `'\n'`, so the fuel can never
be exhausted before the stream is; the `0` case is unreachable and shares
the stream-exhaustion result. -/
def parseHeaders (acc : HeaderMap) (s : Bytes) :
    ParseError ⊕ (HeaderMap × Bytes) :=
  parseHeadersFuel acc s (s.length + 1)

/-- `ParseRequest` from `src/unnamed/part_006` (the canonical revision of
`internal/server/request.go`): request line, headers, then — when a
`content-length` header is present — `strconv.Atoi`, the `> MaxBodySize`
check, `make([]byte, n)` (which panics for negative `n`), and
`io.ReadFull` for exactly `n` bytes. -/
def parseRequest (s : Bytes) : ParseOutcome :=
  match parseRequestLine s with
  | .inl e => .err e
  | .inr ((m, p, v), rest0) =>
    match parseHeaders [] rest0 with
    | .inl e => .err e
    | .inr (hdrs, rest1) =>
      match mapGet hdrs ("content-length".toList) with
      | none =>
        .ok { method := m, path := p, version := v, headers := hdrs, body := [] } rest1
      | some val =>
        match atoi val with
        | none => .err .invalidContentLength
        | some n =>
          if MaxBodySize < n then .err .bodyTooLarge
          else if n < 0 then .panics
          else if rest1.length < n.toNat then
            (if rest1.length = 0 then .err .bodyEOF else .err .truncatedBody)
          else
            .ok { method := m, path := p, version := v, headers := hdrs,
                  body := rest1.take n.toNat } (rest1.drop n.toNat)

/-! ### Response data model (`internal/server/response.go`)

`StreamFunc func(io.Writer) error` is embedded by its interaction trace: the
sequence of byte slices the producer pushes through the sink, paired with
`true` for a nil-error completion and `false` for an error return. -/

/-- An HTTP response (struct `Response`). -/
structure Response where
  version : Bytes
  status : Nat
  reason : Bytes
  headers : HeaderMap
  body : Bytes
  streamFunc : Option (List Bytes × Bool) := none
deriving DecidableEq

def HTTPVersion : Bytes := "HTTP/1.1".toList

/-! ### Standard error responses (`src/unnamed/part_004`, `router.go`) -/

/-- `BadRequestResponse` (defined in the source, invoked nowhere). -/
def BadRequestResponse : Response :=
  { version := HTTPVersion, status := 400, reason := "Bad Request".toList,
    headers := [("Content-Type".toList, "text/plain".toList)],
    body := "400 Bad Request".toList }

def InternalServerErrorResponse : Response :=
  { version := HTTPVersion, status := 500, reason := "Internal Server Error".toList,
    headers := [("Content-Type".toList, "text/plain".toList)],
    body := "500 Internal Server Error".toList }

def NotFoundResponse : Response :=
  { version := HTTPVersion, status := 404, reason := "Not Found".toList,
    headers := [("Content-Type".toList, "text/plain".toList)],
    body := "404 Not Found".toList }

/-- `MethodNotAllowedResponse(allow)`: 405 with a populated `Allow` header. -/
def MethodNotAllowedResponse (allow : Bytes) : Response :=
  { version := HTTPVersion, status := 405, reason := "Method Not Allowed".toList,
    headers := [("Content-Type".toList, "text/plain".toList),
                ("Allow".toList, allow)],
    body := "405 Method Not Allowed".toList }

/-- `OptionsResponse(allow)`: automatic 204 with `Allow` set. -/
def OptionsResponse (allow : Bytes) : Response :=
  { version := HTTPVersion, status := 204, reason := "No Content".toList,
    headers := [("Allow".toList, allow)], body := allow }

/-! ### Router (`internal/server/router.go`) -/

/-- A registered route. The `regex` field of the Go struct (a compiled
`*regexp.Regexp`, or nil) is embedded as an optional match predicate; every
route the claims exercise has `none` here. The Go field `isPrefix` is named
`isPrefixRoute` here. -/
structure Route where
  pattern : Bytes
  method : Bytes
  handler : Request → Response
  regex : Option (Bytes → Bool) := none
  isPrefixRoute : Bool := false

structure RouteGroup where
  groupPre : Bytes
  routes : List Route

structure Router where
  routes : List Route
  groups : List RouteGroup

/-- `NewRouter()`. -/
def NewRouter : Router := { routes := [], groups := [] }

/-- `Router.Handle(path, method, handler)`: register an exact route with the
method uppercased. -/
def Router.Handle (r : Router) (path method : Bytes) (h : Request → Response) :
    Router :=
  { r with routes := r.routes ++ [{ pattern := path, method := toUpperStr method,
                                    handler := h }] }

/-- `Router.HandlePrefix(prefix, method, handler)`: register a prefix route
with the method uppercased. -/
def Router.HandlePrefixRoute (r : Router) (pre method : Bytes)
    (h : Request → Response) : Router :=
  { r with routes := r.routes ++ [{ pattern := pre, method := toUpperStr method,
                                    handler := h, isPrefixRoute := true }] }

/-- `extractParams(pattern, path)` (router.go lines 184-200): split both on
`/`; equal segment counts required; `:`-segments bind, literal segments must
match. Returns the params map, `nil` on mismatch. -/
def extractParams (pattern path : Bytes) : Option HeaderMap :=
  let pp := splitOnChar '/' pattern
  let qp := splitOnChar '/' path
  if pp.length ≠ qp.length then none
  else
    (pp.zip qp).foldl
      (fun acc (pq : Bytes × Bytes) =>
        match acc with
        | none => none
        | some m =>
          if [':'].isPrefixOf pq.1 then some (mapInsert m (pq.1.drop 1) pq.2)
          else if pq.1 ≠ pq.2 then none
          else some m)
      (some [])

/-- The body of the per-route dispatch loop in `Router.Route` (router.go
lines 136-157): skip on method mismatch; then try, in order, the regex
match, the parameterized match (pattern containing `:`), the exact match,
and the prefix match. A parameterized pattern whose params come back nil
falls through to the next route, exactly as in the source. -/
def tryRoute (route : Route) (req : Request) : Option Response :=
  if route.method ≠ [] ∧ route.method ≠ toUpperStr req.method then none
  else if (match route.regex with | some m => m req.path | none => false) then
    some (route.handler req)
  else if [':'].isPrefixOf route.pattern ∨ containsChar route.pattern ':' then
    match extractParams route.pattern req.path with
    | some ps => some (route.handler { req with params := ps })
    | none => none
  else if route.pattern = req.path then some (route.handler req)
  else if route.isPrefixRoute ∧ route.pattern.isPrefixOf req.path then
    some (route.handler req)
  else none

/-- First matching route of the main route list, in registration order. -/
def firstRoute : List Route → Request → Option Response
  | [], _ => none
  | route :: rest, req =>
    match tryRoute route req with
    | some resp => some resp
    | none => firstRoute rest req

/-- The group loop of `Router.Route` (router.go lines 158-167): method
check, then exact pattern equality only. -/
def tryGroupRoute (route : Route) (req : Request) : Option Response :=
  if route.method ≠ [] ∧ route.method ≠ toUpperStr req.method then none
  else if route.pattern = req.path then some (route.handler req)
  else none

def firstGroupRoute : List RouteGroup → Request → Option Response
  | [], _ => none
  | g :: gs, req =>
    match
      (g.routes.foldl
        (fun acc route =>
          match acc with
          | some resp => some resp
          | none => tryGroupRoute route req)
        none) with
    | some resp => some resp
    | none => firstGroupRoute gs req

/-- `Router.Route(req)` (router.go lines 135-170): first matching route
wins; then the groups; otherwise `NotFoundResponse()`. The 405 constructor
`MethodNotAllowedResponse` is never reached from here. -/
def Router.Route (r : Router) (req : Request) : Response :=
  match firstRoute r.routes req with
  | some resp => resp
  | none =>
    match firstGroupRoute r.groups req with
    | some resp => resp
    | none => NotFoundResponse

/-! ### `path/filepath` (lexical path resolution)

`filepath.Join(elems...)` is `Clean(strings.Join(elems, "/"))`. For the
rooted paths the file handler builds, `Clean` resolves `.` and `..`
lexically. Paths are modelled as their slash-separated segment lists
relative to the filesystem root; `cleanSegs` is `Clean` on such a rooted
path (at the root, a leading `..` is dropped, as in Go). -/

def cleanPush (st : List Bytes) (seg : Bytes) : List Bytes :=
  if seg = [] ∨ seg = ['.'] then st
  else if seg = ['.', '.'] then st.dropLast
  else st ++ [seg]

def cleanSegs (segs : List Bytes) : List Bytes := segs.foldl cleanPush []

/-- `filepath.Join(root, suffix)` for an absolute root given as clean
segments: append the suffix's segments and clean the result. -/
def filepathJoin (root : List Bytes) (suffix : Bytes) : List Bytes :=
  cleanSegs (root ++ splitOnChar '/' suffix)

/-- `filepath.Ext`: the suffix of the final element starting at its final
dot; empty when the final element has no dot. -/
def filepathExt (p : List Bytes) : Bytes :=
  match p.getLast? with
  | none => []
  | some seg =>
    if containsChar seg '.' then
      '.' :: (seg.reverse.takeWhile (fun c => c ≠ '.')).reverse
    else []

/-- The files visible to the static-file collaborator: resolved segment
path ↦ contents. -/
abbrev FileSys := List (List Bytes × Bytes)

def fsRead (fs : FileSys) (p : List Bytes) : Option Bytes :=
  match fs.find? (fun e => decide (e.1 = p)) with
  | some e => some e.2
  | none => none

/-- `strconv.Itoa`. -/
def itoa (n : Nat) : Bytes := Nat.toDigits 10 n

/-! ### Handlers (`src/unnamed/part_008`, the revision registered by
`internal/server/server.go`) -/

/-- `handleRoot`: GET/HEAD 200 welcome (HEAD body nil), OPTIONS 204,
otherwise 405. -/
def handleRoot (req : Request) : Response :=
  if req.method = "GET".toList ∨ req.method = "HEAD".toList then
    { version := HTTPVersion, status := 200, reason := "OK".toList,
      headers := [("Content-Type".toList, "text/plain".toList)],
      body := if req.method = "HEAD".toList then []
              else "Welcome to my HTTP server".toList }
  else if req.method = "OPTIONS".toList then
    OptionsResponse "GET, HEAD, OPTIONS".toList
  else MethodNotAllowedResponse "GET, HEAD, OPTIONS".toList

/-- `handleEcho`: echo the path part after `/echo/`. -/
def handleEcho (req : Request) : Response :=
  let message :=
    match splitOnceSub ("/echo/".toList) req.path with
    | some (_, suf) => suf
    | none => []
  if req.method = "GET".toList ∨ req.method = "HEAD".toList then
    { version := HTTPVersion, status := 200, reason := "OK".toList,
      headers := [("Content-Type".toList, "text/plain".toList)],
      body := if req.method = "HEAD".toList then [] else message }
  else if req.method = "OPTIONS".toList then
    OptionsResponse "GET, HEAD, OPTIONS".toList
  else MethodNotAllowedResponse "GET, HEAD, OPTIONS".toList

/-- `handleUserAgent`: reflect the lowercase-keyed `user-agent` header. -/
def handleUserAgent (req : Request) : Response :=
  if req.method = "GET".toList ∨ req.method = "HEAD".toList then
    { version := HTTPVersion, status := 200, reason := "OK".toList,
      headers := [("Content-Type".toList, "text/plain".toList)],
      body := if req.method = "HEAD".toList then []
              else mapGetD req.headers ("user-agent".toList) }
  else if req.method = "OPTIONS".toList then
    OptionsResponse "GET, HEAD, OPTIONS".toList
  else MethodNotAllowedResponse "GET, HEAD, OPTIONS".toList

/-- The suffix of a `/files/`-request: `strings.SplitN(path, "/files/", 2)`
followed by the `len(parts) < 2 || parts[1] == ""` guard (400 when `none`). -/
def filesSuffix (path : Bytes) : Option Bytes :=
  match splitOnceSub ("/files/".toList) path with
  | none => none
  | some (_, suf) => if suf = [] then none else some suf

/-- The file path `handleFiles` resolves for a request path, when the
request passes the no-filename guard: `filepath.Join(publicDir, parts[1])`
(part_008 line 137; `handler.go` line 101 is `Join(cwd, "public", parts[1])`,
the same resolution with `publicDir = cwd ++ ["public"]`). -/
def handleFilesPath (publicDir : List Bytes) (path : Bytes) :
    Option (List Bytes) :=
  (filesSuffix path).map (fun suf => filepathJoin publicDir suf)

/-- `handleFiles` (part_008 lines 124-214). `getPublicDir()` is passed in as
the resolved `publicDir` segment list; `os.ReadFile`/`os.Remove` consult
`fs`; `os.WriteFile` is modelled as succeeding (its effect is outside this
core); `mime.TypeByExtension` is the collaborator `mimeOf`, `[]` meaning
unknown. -/
def handleFiles (publicDir : List Bytes) (fs : FileSys) (mimeOf : Bytes → Bytes)
    (req : Request) : Response :=
  match filesSuffix req.path with
  | none =>
    { version := HTTPVersion, status := 400, reason := "Bad Request".toList,
      headers := [("Content-Type".toList, "text/plain".toList)],
      body := "No file specified".toList }
  | some suffix =>
    let filePath := filepathJoin publicDir suffix
    if req.method = "GET".toList ∨ req.method = "HEAD".toList then
      match fsRead fs filePath with
      | none => NotFoundResponse
      | some data =>
        let m := mimeOf (filepathExt filePath)
        let mimeType := if m = [] then "application/octet-stream".toList else m
        { version := "HTTP/1.1".toList, status := 200, reason := "OK".toList,
          headers := [("Content-Type".toList, mimeType),
                      ("Content-Length".toList, itoa data.length)],
          body := if req.method = "HEAD".toList then [] else data }
    else if req.method = "POST".toList ∨ req.method = "PUT".toList then
      if req.method = "PUT".toList then
        { version := "HTTP/1.1".toList, status := 200, reason := "OK".toList,
          headers := [("Content-Type".toList, "text/plain".toList)],
          body := "File written successfully".toList }
      else
        { version := "HTTP/1.1".toList, status := 201, reason := "Created".toList,
          headers := [("Content-Type".toList, "text/plain".toList)],
          body := "File written successfully".toList }
    else if req.method = "DELETE".toList then
      match fsRead fs filePath with
      | none => NotFoundResponse
      | some _ =>
        { version := "HTTP/1.1".toList, status := 204,
          reason := "No Content".toList, headers := [], body := [] }
    else if req.method = "OPTIONS".toList then
      OptionsResponse "GET, HEAD, OPTIONS".toList
    else MethodNotAllowedResponse "GET, HEAD, POST, PUT, DELETE, OPTIONS".toList

/-- The route table `StartServer` builds (`internal/server/server.go` lines
48-66), including its duplicate `/echo/` registrations bound to
`handleUserAgent` and its misspelled `"DELET"` method for `/files/`. -/
def serverRouter (publicDir : List Bytes) (fs : FileSys)
    (mimeOf : Bytes → Bytes) : Router :=
  let hf := handleFiles publicDir fs mimeOf
  let r := NewRouter
  let r := r.Handle "/".toList "GET".toList handleRoot
  let r := r.Handle "/".toList "HEAD".toList handleRoot
  let r := r.Handle "/".toList "OPTIONS".toList handleRoot
  let r := r.HandlePrefixRoute "/echo/".toList "GET".toList handleEcho
  let r := r.HandlePrefixRoute "/echo/".toList "HEAD".toList handleEcho
  let r := r.HandlePrefixRoute "/echo/".toList "OPTIONS".toList handleEcho
  let r := r.Handle "/user-agent".toList "GET".toList handleUserAgent
  let r := r.HandlePrefixRoute "/echo/".toList "HEAD".toList handleUserAgent
  let r := r.HandlePrefixRoute "/echo/".toList "OPTIONS".toList handleUserAgent
  let r := r.HandlePrefixRoute "/files/".toList "GET".toList hf
  let r := r.HandlePrefixRoute "/files/".toList "HEAD".toList hf
  let r := r.HandlePrefixRoute "/files/".toList "POST".toList hf
  let r := r.HandlePrefixRoute "/files/".toList "PUT".toList hf
  let r := r.HandlePrefixRoute "/files/".toList "DELET".toList hf
  let r := r.HandlePrefixRoute "/files/".toList "OPTIONS".toList hf
  r

/-! ### Response writer (`internal/server/response.go`) -/

/-- `ChunkedWriter.Write(p)` — the bytes it pushes to the underlying
writer: nothing for an empty slice, else `"%x" of len(p)`, CRLF, the
bytes, CRLF. -/
def chunkedWriterWrite (p : Bytes) : Bytes :=
  if p = [] then [] else Nat.toDigits 16 p.length ++ CLRF ++ p ++ CLRF

/-- `ChunkedWriter.Close()` — the terminal chunk. -/
def chunkedWriterClose : Bytes := "0\r\n\r\n".toList

/-- One serialized `Key: Value CRLF` block for a header map (the Go map's
iteration order is arbitrary; the association-list order stands in for one
such order, and no claim depends on it). -/
def headerLines (m : HeaderMap) : Bytes :=
  (m.map (fun (p : Bytes × Bytes) => p.1 ++ ": ".toList ++ p.2 ++ CLRF)).flatten

/-- The headers `SendResponse` writes: the response's own map, plus
`Transfer-Encoding: chunked` exactly when a stream producer is present
(response.go lines 131-133). No `Content-Length` or `Content-Type`
defaulting happens here. -/
def sendHeaders (res : Response) : HeaderMap :=
  match res.streamFunc with
  | some _ => mapInsert res.headers ("Transfer-Encoding".toList) ("chunked".toList)
  | none => res.headers

/-- The status line plus header block plus blank line `SendResponse` flushes
before any body bytes (response.go lines 129-139). -/
def sendHead (res : Response) : Bytes :=
  res.version ++ [' '] ++ Nat.toDigits 10 res.status ++ [' '] ++ res.reason ++ CLRF
    ++ headerLines (sendHeaders res) ++ CLRF

/-- The chunked body bytes (response.go lines 141-148): each producer write
through the `ChunkedWriter`, then `Close` — but only when the producer
returned nil; on a producer error `SendResponse` returns the error before
`Close` runs. -/
def sendStreamBody (writes : List Bytes) (producerOk : Bool) : Bytes :=
  (writes.map chunkedWriterWrite).flatten
    ++ (if producerOk then chunkedWriterClose else [])

/-- `SendResponse` (response.go lines 126-158): the bytes pushed to the
connection and whether the send succeeded (`false` exactly when the stream
producer errored; network write failures are not modelled). -/
def sendResponse (res : Response) : Bytes × Bool :=
  match res.streamFunc with
  | some (writes, producerOk) =>
    (sendHead res ++ sendStreamBody writes producerOk, producerOk)
  | none => (sendHead res ++ res.body, true)

/-- The header map `BuildResponse` serializes (response.go lines 70-81):
default `Content-Type: text/plain`, then default `Content-Length` to the
body length, each only when absent. -/
def buildResponseHeaders (headers : HeaderMap) (body : Bytes) : HeaderMap :=
  let h1 :=
    if mapGet headers ("Content-Type".toList) = none then
      mapInsert headers ("Content-Type".toList) ("text/plain".toList)
    else headers
  if mapGet h1 ("Content-Length".toList) = none then
    mapInsert h1 ("Content-Length".toList) (itoa body.length)
  else h1

/-- `BuildResponse` (response.go lines 70-94). `SendResponse` never calls
it. -/
def BuildResponse (status : Nat) (reason : Bytes) (headers : HeaderMap)
    (body : Bytes) : Bytes :=
  HTTPVersion ++ [' '] ++ Nat.toDigits 10 status ++ [' '] ++ reason ++ CLRF
    ++ headerLines (buildResponseHeaders headers body) ++ CLRF ++ body

/-! ### Connection lifecycle (`internal/server/server.go` lines 103-142)

One worker owns the connection. The byte stream holds the requests the
peer sends in order (sequential keep-alive; each request is available when
the worker loops back to read). Network sends are modelled as succeeding;
`fuel` bounds the keep-alive loop, with exhaustion recorded. -/

structure ConnResult where
  sent : List Response
  panicked : Bool
  outOfFuel : Bool
deriving DecidableEq

/-- `resp.Headers[k] = v`. -/
def setHeader (res : Response) (k v : Bytes) : Response :=
  { res with headers := mapInsert res.headers k v }

/-- `handleConnection(conn, router)`: parse (EOF and every other parse
failure both just close the connection — no 400 is sent); dispatch; set the
outgoing `Connection` header from the inbound one (`keep-alive` echoes,
anything else becomes `close`); send; loop back unless the *inbound* header
was `close`. -/
def handleConnection (router : Router) : Nat → Bytes → ConnResult
  | 0, _ => { sent := [], panicked := false, outOfFuel := true }
  | n + 1, s =>
    match parseRequest s with
    | .panics => { sent := [], panicked := true, outOfFuel := false }
    | .err _ => { sent := [], panicked := false, outOfFuel := false }
    | .ok req rest =>
      let resp := Router.Route router req
      let ch := toLowerStr (mapGetD req.headers ("connection".toList))
      let resp := setHeader resp ("Connection".toList)
          (if ch = "keep-alive".toList then "keep-alive".toList
           else "close".toList)
      if ch = "close".toList then
        { sent := [resp], panicked := false, outOfFuel := false }
      else
        let r := handleConnection router n rest
        { sent := resp :: r.sent, panicked := r.panicked, outOfFuel := r.outOfFuel }

/-! ### Statement-side helpers and concrete fixtures -/

/-- Number of (possibly overlapping) occurrences of a non-empty pattern as
a contiguous substring. -/
def countOccurrences (pat : Bytes) : Bytes → Nat
  | [] => 0
  | c :: rest =>
    (if pat.isPrefixOf (c :: rest) then 1 else 0) + countOccurrences pat rest

/-- Whether a route's pattern matches a path according to the route's kind,
ignoring the method restriction — the disjunction of the four pattern tests
of the dispatch loop. Used to state the "path matches but method does not"
precondition. -/
def routePatternMatches (route : Route) (path : Bytes) : Bool :=
  (match route.regex with | some m => m path | none => false)
    || (([':'].isPrefixOf route.pattern || containsChar route.pattern ':')
        && (extractParams route.pattern path).isSome)
    || decide (route.pattern = path)
    || (route.isPrefixRoute && route.pattern.isPrefixOf path)

/-- Demo public root `<cwd>/public` with `cwd = /srv`. -/
def pubDemo : List Bytes := ["srv".toList, "public".toList]

/-- Demo filesystem: one file inside the public root and one outside it. -/
def fsDemo : FileSys :=
  [(pubDemo ++ ["readme.txt".toList], "hello".toList),
   (["srv".toList, "secret.txt".toList], "TOPSECRET".toList)]

/-- Demo MIME collaborator: no registered extensions. -/
def mimeDemo : Bytes → Bytes := fun _ => []

/-- The server's route table over the demo collaborators. -/
def demoRouter : Router := serverRouter pubDemo fsDemo mimeDemo

def reqPostUserAgent : Request :=
  { method := "POST".toList, path := "/user-agent".toList,
    version := "HTTP/1.1".toList, headers := [], body := [] }

def reqFilesReadme : Request :=
  { method := "GET".toList, path := "/files/readme.txt".toList,
    version := "HTTP/1.1".toList, headers := [], body := [] }

def reqRootGet : Request :=
  { method := "GET".toList, path := "/".toList,
    version := "HTTP/1.1".toList, headers := [], body := [] }

def reqTraversal : Request :=
  { method := "GET".toList, path := "/files/../secret.txt".toList,
    version := "HTTP/1.1".toList, headers := [], body := [] }

/-- Two back-to-back requests with no `Connection` header. -/
def twoRootRequests : Bytes :=
  ("GET / HTTP/1.1\r\n\r\n" ++ "GET / HTTP/1.1\r\n\r\n").toList

/-- A streaming response whose producer writes one byte then errors. -/
def streamErrResp : Response :=
  { version := HTTPVersion, status := 200, reason := "OK".toList,
    headers := [("Content-Type".toList, "text/plain".toList)], body := [],
    streamFunc := some ([['a']], false) }

/-- A streaming response whose producer writes one byte then completes. -/
def streamOkResp : Response :=
  { version := HTTPVersion, status := 200, reason := "OK".toList,
    headers := [("Content-Type".toList, "text/plain".toList)], body := [],
    streamFunc := some ([['a']], true) }

/-! ## Helper lemmas -/

theorem mapGet_mapInsert_self (m : HeaderMap) (k v : Bytes) :
    mapGet (mapInsert m k v) k = some v := by
  unfold mapInsert
  by_cases h : (mapGet m k).isSome
  · simp only [h, if_true]
    induction m with
    | nil => simp [mapGet] at h
    | cons p t ih =>
      by_cases hp : p.1 = k
      · simp [mapGet, hp]
      · have h2 : (mapGet t k).isSome := by
          simpa [mapGet, List.find?, hp] using h
        have := ih h2
        simpa [mapGet, List.find?, hp] using this
  · simp only [h, if_false]
    induction m with
    | nil => simp [mapGet]
    | cons p t ih =>
      by_cases hp : p.1 = k
      · simp [mapGet, List.find?, hp] at h
      · have h2 : ¬ (mapGet t k).isSome := by
          simpa [mapGet, List.find?, hp] using h
        have := ih h2
        simpa [mapGet, List.find?, hp] using this

theorem firstRoute_eq_none {req : Request} :
    ∀ (l : List Route), (∀ route ∈ l, tryRoute route req = none) →
      firstRoute l req = none := by
  intro l
  induction l with
  | nil => intro _; rfl
  | cons route rest ih =>
    intro h
    have h1 := h route (by simp)
    have h2 := ih (fun r2 hr2 => h r2 (by simp [hr2]))
    simp [firstRoute, h1, h2]

theorem groupFold_eq_none {req : Request} :
    ∀ (l : List Route), (∀ route ∈ l, tryGroupRoute route req = none) →
      l.foldl
        (fun acc route =>
          match acc with
          | some resp => some resp
          | none => tryGroupRoute route req)
        none = none := by
  intro l
  induction l with
  | nil => intro _; rfl
  | cons route rest ih =>
    intro h
    have h1 := h route (by simp)
    have h2 := ih (fun r2 hr2 => h r2 (by simp [hr2]))
    simpa [h1] using h2

theorem firstGroupRoute_eq_none {req : Request} :
    ∀ (gs : List RouteGroup),
      (∀ g ∈ gs, ∀ route ∈ g.routes, tryGroupRoute route req = none) →
      firstGroupRoute gs req = none := by
  intro gs
  induction gs with
  | nil => intro _; rfl
  | cons g rest ih =>
    intro h
    have h1 := groupFold_eq_none g.routes (h g (by simp))
    have h2 := ih (fun g2 hg2 => h g2 (by simp [hg2]))
    simp [firstGroupRoute, h1, h2]

theorem firstRoute_append_first {req : Request} {resp : Response} :
    ∀ (pre : List Route) (route : Route) (rest : List Route),
      (∀ r2 ∈ pre, tryRoute r2 req = none) →
      tryRoute route req = some resp →
      firstRoute (pre ++ route :: rest) req = some resp := by
  intro pre
  induction pre with
  | nil =>
    intro route rest _ hmatch
    simp [firstRoute, hmatch]
  | cons r2 pre2 ih =>
    intro route rest hnone hmatch
    have h1 := hnone r2 (by simp)
    have h2 := ih route rest (fun r3 hr3 => hnone r3 (by simp [hr3])) hmatch
    simp [firstRoute, h1, h2]

/-! ## Claim theorems -/

/-- C1: whenever the request-line and header phases succeed and the headers
carry a `content-length` entry whose value parses as a non-negative integer
`n` within the body cap and the remaining stream holds at least `n` bytes,
`ParseRequest` succeeds and the returned body is exactly those `n` bytes;
and whenever the `content-length` value does not parse as an integer,
`ParseRequest` fails with the invalid-Content-Length error rather than
returning a request. -/
theorem parseRequest_contentLength_spec :
    (∀ (s m p v s1 : Bytes) (hdrs : HeaderMap) (s2 val : Bytes) (n : Int),
        parseRequestLine s = .inr ((m, p, v), s1) →
        parseHeaders [] s1 = .inr (hdrs, s2) →
        mapGet hdrs ("content-length".toList) = some val →
        atoi val = some n → 0 ≤ n → n ≤ MaxBodySize → n.toNat ≤ s2.length →
        parseRequest s
          = .ok { method := m, path := p, version := v, headers := hdrs,
                  body := s2.take n.toNat } (s2.drop n.toNat))
  ∧ (∀ (s m p v s1 : Bytes) (hdrs : HeaderMap) (s2 val : Bytes),
        parseRequestLine s = .inr ((m, p, v), s1) →
        parseHeaders [] s1 = .inr (hdrs, s2) →
        mapGet hdrs ("content-length".toList) = some val →
        atoi val = none →
        parseRequest s = .err .invalidContentLength) := by
  constructor
  · intro s m p v s1 hdrs s2 val n h1 h2 h3 h4 h5 h6 h7
    simp only [parseRequest, h1, h2, h3, h4]
    rw [if_neg (not_lt.mpr h6), if_neg (not_lt.mpr h5), if_neg (not_lt.mpr h7)]
  · intro s m p v s1 hdrs s2 val h1 h2 h3 h4
    simp only [parseRequest, h1, h2, h3, h4]

/-- Witness for C1 at a concrete stream: `content-length: 3` with five
trailing bytes yields body `abc` and leaves `XY` unread. -/
theorem parseRequest_contentLength_spec_witness :
    parseRequest ("POST /x HTTP/1.1\r\ncontent-length: 3\r\n\r\nabcXY".toList)
      = .ok { method := "POST".toList, path := "/x".toList,
              version := "HTTP/1.1".toList,
              headers := [("content-length".toList, "3".toList)],
              body := "abc".toList } ("XY".toList) :=
  parseRequest_contentLength_spec.1
    ("POST /x HTTP/1.1\r\ncontent-length: 3\r\n\r\nabcXY".toList)
    ("POST".toList) ("/x".toList) ("HTTP/1.1".toList)
    ("content-length: 3\r\n\r\nabcXY".toList)
    [("content-length".toList, "3".toList)] ("abcXY".toList) ("3".toList) 3
    (by decide) (by decide) (by decide) (by decide) (by decide) (by decide)
    (by decide)

/-- C2 (refuting the no-panic claim, as the code stands): a request whose
`Content-Length` value parses as `-1` drives `ParseRequest` into
`make([]byte, -1)`, a runtime panic — there is no recover on the
connection goroutine — and the per-connection loop propagates it. -/
theorem parseRequest_negative_contentLength_panics :
    parseRequest ("GET / HTTP/1.1\r\nContent-Length: -1\r\n\r\n".toList)
      = .panics
  ∧ (handleConnection demoRouter 5
        ("GET / HTTP/1.1\r\nContent-Length: -1\r\n\r\n".toList)).panicked
      = true := by
  constructor
  · decide
  · rfl

/-- C3 (refuting the under-root claim, as the code stands): the suffix
`../secret.txt` passes the handler's only guard, resolves via
`filepath.Join` to `/srv/secret.txt` — outside the public root
`/srv/public` — and the GET branch then serves that outside file. -/
theorem handleFiles_path_traversal_escape :
    filesSuffix ("/files/../secret.txt".toList) = some ("../secret.txt".toList)
  ∧ handleFilesPath pubDemo ("/files/../secret.txt".toList)
      = some ["srv".toList, "secret.txt".toList]
  ∧ pubDemo.isPrefixOf ["srv".toList, "secret.txt".toList] = false
  ∧ (handleFiles pubDemo fsDemo mimeDemo reqTraversal).status = 200
  ∧ (handleFiles pubDemo fsDemo mimeDemo reqTraversal).body = "TOPSECRET".toList
  ∧ Router.Route demoRouter reqTraversal
      = handleFiles pubDemo fsDemo mimeDemo reqTraversal := by
  refine ⟨by decide, by decide, by decide, by decide, by decide, ?_⟩
  rfl

/-- C8 (refuting the serialization-defaults claim, as the code stands): the
root handler's response carries a 25-byte body and no `Content-Length`;
`SendResponse` writes the header block verbatim, so the wire bytes contain
no `Content-Length` (and would contain no `Content-Type` had the handler
omitted it) — only the never-called `BuildResponse` performs the
defaulting the claim describes. -/
theorem sendResponse_missing_content_length :
    (Router.Route demoRouter reqRootGet).body.length = 25
  ∧ mapGet (Router.Route demoRouter reqRootGet).headers
      ("Content-Length".toList) = none
  ∧ countOccurrences ("Content-Length".toList)
      (sendResponse
        (setHeader (Router.Route demoRouter reqRootGet)
          ("Connection".toList) ("close".toList))).1 = 0
  ∧ mapGet
      (buildResponseHeaders (Router.Route demoRouter reqRootGet).headers
        (Router.Route demoRouter reqRootGet).body)
      ("Content-Length".toList) = some ("25".toList)
  ∧ mapGet (buildResponseHeaders [] []) ("Content-Type".toList)
      = some ("text/plain".toList) := by
  refine ⟨by decide, by decide, by decide, by decide, by decide⟩

set_option maxRecDepth 20000 in
/-- C9: each non-empty write through the chunk sink emits the lowercase
hexadecimal length, CRLF, the bytes, CRLF; an empty write emits nothing;
the close emits the terminal chunk; and the concrete write sequence of
lengths 0, 5 and 1024 followed by a close emits exactly nothing,
`5\r\n<5 bytes>\r\n`, `400\r\n<1024 bytes>\r\n` and `0\r\n\r\n`. -/
theorem chunked_encoding_format :
    (∀ p : Bytes, 0 < p.length →
        chunkedWriterWrite p = Nat.toDigits 16 p.length ++ CLRF ++ p ++ CLRF)
  ∧ chunkedWriterWrite [] = []
  ∧ chunkedWriterClose = "0\r\n\r\n".toList
  ∧ chunkedWriterWrite [] ++ chunkedWriterWrite ("hello".toList)
      ++ chunkedWriterWrite (List.replicate 1024 'a') ++ chunkedWriterClose
    = "5\r\nhello\r\n".toList
        ++ ("400\r\n".toList ++ List.replicate 1024 'a' ++ CLRF)
        ++ "0\r\n\r\n".toList := by
  refine ⟨?_, rfl, rfl, ?_⟩
  · intro p hp
    have hne : ¬ p = [] := by
      cases p with
      | nil => simp at hp
      | cons c t => simp
    simp [chunkedWriterWrite, hne]
  · rfl

/-- Witness for C9's per-write clause at a concrete two-byte write. -/
theorem chunked_encoding_format_witness :
    0 < ("hi".toList).length
  ∧ chunkedWriterWrite ("hi".toList)
      = Nat.toDigits 16 ("hi".toList).length ++ CLRF ++ "hi".toList ++ CLRF :=
  ⟨by decide, chunked_encoding_format.1 ("hi".toList) (by decide)⟩

/-- C4 counterexample: `POST /user-agent` — a path registered exactly, but
only for GET — matches no route by method yet the dispatcher returns the
404 `NotFoundResponse` with no `Allow` header, not a 405. -/
theorem route_method_mismatch_404_cex :
    (∃ route ∈ demoRouter.routes,
        routePatternMatches route reqPostUserAgent.path = true
      ∧ route.method ≠ []
      ∧ route.method ≠ toUpperStr reqPostUserAgent.method)
  ∧ Router.Route demoRouter reqPostUserAgent = NotFoundResponse
  ∧ (Router.Route demoRouter reqPostUserAgent).status = 404
  ∧ (Router.Route demoRouter reqPostUserAgent).status ≠ 405
  ∧ mapGet (Router.Route demoRouter reqPostUserAgent).headers
      ("Allow".toList) = none := by
  refine ⟨?_, ?_, by decide, by decide, by decide⟩
  · exact ⟨demoRouter.routes.get ⟨6, by decide⟩,
           List.get_mem demoRouter.routes 6 (by decide),
           by decide, by decide, by decide⟩
  · rfl

/-- C4 amended: when some registered route's pattern matches the request
path but every route fails (in particular by method mismatch), and the
groups match nothing either, dispatch returns the 404 `NotFoundResponse`;
the 405 constructor `MethodNotAllowedResponse` is not on this path. -/
theorem route_method_mismatch_returns_404 (r : Router) (req : Request)
    (hroutes : ∀ route ∈ r.routes, tryRoute route req = none)
    (hgroups : ∀ g ∈ r.groups, ∀ route ∈ g.routes, tryGroupRoute route req = none)
    (hpath : ∃ route ∈ r.routes,
        routePatternMatches route req.path = true
      ∧ route.method ≠ []
      ∧ route.method ≠ toUpperStr req.method) :
    Router.Route r req = NotFoundResponse := by
  have h1 := firstRoute_eq_none r.routes hroutes
  have h2 := firstGroupRoute_eq_none r.groups hgroups
  simp [Router.Route, h1, h2]

/-- Witness for C4's amended statement at the concrete `POST /user-agent`
request against the server's route table. -/
theorem route_method_mismatch_returns_404_witness :
    Router.Route demoRouter reqPostUserAgent = NotFoundResponse :=
  route_method_mismatch_returns_404 demoRouter reqPostUserAgent
    (by decide) (by decide)
    ⟨demoRouter.routes.get ⟨6, by decide⟩,
     List.get_mem demoRouter.routes 6 (by decide),
     by decide, by decide, by decide⟩

/-- C10: dispatch invokes the handler chosen by the first route, in
registration order, that passes the method restriction and whose pattern
matches by its kind; concretely, with the exact `/` routes and the prefix
`/files/` routes registered, `GET /files/readme.txt` is dispatched to the
file handler — serving the file's bytes — and not to the root handler. -/
theorem route_first_match_dispatch :
    (∀ (r : Router) (req : Request) (pre : List Route) (route : Route)
        (rest : List Route) (resp : Response),
        r.routes = pre ++ route :: rest →
        (∀ r2 ∈ pre, tryRoute r2 req = none) →
        tryRoute route req = some resp →
        Router.Route r req = resp)
  ∧ Router.Route demoRouter reqFilesReadme
      = handleFiles pubDemo fsDemo mimeDemo reqFilesReadme
  ∧ (Router.Route demoRouter reqFilesReadme).body = "hello".toList
  ∧ Router.Route demoRouter reqFilesReadme ≠ handleRoot reqFilesReadme := by
  refine ⟨?_, by rfl, by decide, by decide⟩
  intro r req pre route rest resp hsplit hnone hmatch
  have h1 := firstRoute_append_first pre route rest hnone hmatch
  simp [Router.Route, hsplit, h1]

/-- Witness for C10's first-match clause: the very first registered route
(exact `/`, method GET) matches `GET /` with no earlier routes, so dispatch
returns the root handler's response. -/
theorem route_first_match_dispatch_witness :
    Router.Route demoRouter reqRootGet = handleRoot reqRootGet :=
  route_first_match_dispatch.1 demoRouter reqRootGet []
    { pattern := "/".toList, method := "GET".toList, handler := handleRoot }
    (demoRouter.routes.drop 1) (handleRoot reqRootGet)
    (by rfl) (by simp) (by rfl)

/-- C5 counterexample: two back-to-back requests, neither carrying a
`Connection` header. The first response goes out with the outgoing header
`close`, yet the loop reads and serves the second request — so a
successfully sent `close` response does not put the connection into
Closed, contradicting the claim. -/
theorem connection_close_still_loops_cex :
    (handleConnection demoRouter 5 twoRootRequests).sent.length = 2
  ∧ (handleConnection demoRouter 5 twoRootRequests).sent.map
      (fun resp => mapGet resp.headers ("Connection".toList))
      = [some ("close".toList), some ("close".toList)]
  ∧ (handleConnection demoRouter 5 twoRootRequests).panicked = false
  ∧ (handleConnection demoRouter 5 twoRootRequests).outOfFuel = false := by
  refine ⟨by rfl, by rfl, by rfl, by rfl⟩

/-- C5 amended: after a successful parse the outgoing `Connection` header
is `keep-alive` exactly when the inbound one (lowercased) is `keep-alive`
and `close` otherwise, but the loop closes the connection only when the
*inbound* header is `close`; for any other inbound value — including
absent — it loops back to Reading even though the response said `close`. -/
theorem connection_loop_close_semantics (router : Router) (fuel : Nat)
    (s : Bytes) (req : Request) (rest : Bytes)
    (hparse : parseRequest s = .ok req rest) :
    ∃ resp : Response,
      (handleConnection router (fuel + 1) s).sent
        = resp ::
          (if toLowerStr (mapGetD req.headers ("connection".toList))
              = "close".toList
           then []
           else (handleConnection router fuel rest).sent)
    ∧ mapGet resp.headers ("Connection".toList)
        = some
          (if toLowerStr (mapGetD req.headers ("connection".toList))
              = "keep-alive".toList
           then "keep-alive".toList else "close".toList) := by
  refine ⟨setHeader (Router.Route router req) ("Connection".toList)
      (if toLowerStr (mapGetD req.headers ("connection".toList))
          = "keep-alive".toList
       then "keep-alive".toList else "close".toList), ?_, ?_⟩
  · simp only [handleConnection, hparse]
    split_ifs with h1
    all_goals rfl
  · exact mapGet_mapInsert_self _ _ _

/-- Witness for C5's amended statement: a single keep-alive request
followed by end of stream. -/
theorem connection_loop_close_semantics_witness :
    ∃ resp : Response,
      (handleConnection demoRouter 3
          ("GET / HTTP/1.1\r\nConnection: keep-alive\r\n\r\n".toList)).sent
        = resp ::
          (if toLowerStr
              (mapGetD
                [("connection".toList, "keep-alive".toList)]
                ("connection".toList)) = "close".toList
           then []
           else (handleConnection demoRouter 2 []).sent)
    ∧ mapGet resp.headers ("Connection".toList)
        = some
          (if toLowerStr
              (mapGetD
                [("connection".toList, "keep-alive".toList)]
                ("connection".toList)) = "keep-alive".toList
           then "keep-alive".toList else "close".toList) :=
  connection_loop_close_semantics demoRouter 2
    ("GET / HTTP/1.1\r\nConnection: keep-alive\r\n\r\n".toList)
    { method := "GET".toList, path := "/".toList, version := "HTTP/1.1".toList,
      headers := [("connection".toList, "keep-alive".toList)], body := [] }
    [] (by decide)

/-- C6 counterexample: a malformed request line is a parse failure that
does not satisfy `errors.Is(err, io.EOF)`, yet the lifecycle closes the
connection with nothing sent — no 400 goes to the peer, even though the
fixed `BadRequestResponse` (status 400) exists in the source. -/
theorem parse_failure_no_response_cex :
    parseRequest ("XYZ\r\n".toList) = .err .malformedRequestLine
  ∧ ParseError.wrapsEOF .malformedRequestLine = false
  ∧ handleConnection demoRouter 5 ("XYZ\r\n".toList)
      = { sent := [], panicked := false, outOfFuel := false }
  ∧ BadRequestResponse.status = 400 := by
  refine ⟨by decide, by rfl, by rfl, by rfl⟩

/-- C6 amended: on every parse failure — end-of-stream or any other — the
lifecycle transitions to Closed without sending any response; the fixed
400 `BadRequestResponse` is defined but never invoked by the loop. -/
theorem parse_failure_closes_silently (router : Router) (fuel : Nat)
    (s : Bytes) (e : ParseError) (hparse : parseRequest s = .err e) :
    handleConnection router (fuel + 1) s
      = { sent := [], panicked := false, outOfFuel := false } := by
  simp only [handleConnection, hparse]

/-- Witness for C6's amended statement at the malformed request line. -/
theorem parse_failure_closes_silently_witness :
    handleConnection demoRouter 5 ("XYZ\r\n".toList)
      = { sent := [], panicked := false, outOfFuel := false } :=
  parse_failure_closes_silently demoRouter 4 ("XYZ\r\n".toList)
    .malformedRequestLine (by decide)

/-- C7 counterexample: a producer that writes one byte and then returns an
error. `SendResponse` returns the error before `Close` runs, so the
terminal chunk `0\r\n\r\n` appears zero times — not once — in the emitted
bytes. -/
theorem stream_error_no_terminal_chunk_cex :
    sendStreamBody [['a']] false = "1\r\na\r\n".toList
  ∧ countOccurrences chunkedWriterClose (sendStreamBody [['a']] false) = 0
  ∧ (sendResponse streamErrResp).2 = false
  ∧ countOccurrences chunkedWriterClose (sendResponse streamErrResp).1 = 0 := by
  refine ⟨by rfl, by decide, by rfl, by decide⟩

/-- C7 amended: when the producer completes successfully the emitted
stream is the chunk encodings followed by the terminal chunk appended
exactly once, and the send succeeds; when the producer errors the stream
is aborted after the chunk encodings with no terminal chunk, and the
error propagates to the connection layer as a send failure. -/
theorem stream_terminal_chunk_on_success (writes : List Bytes)
    (res : Response) :
    sendStreamBody writes true
      = (writes.map chunkedWriterWrite).flatten ++ chunkedWriterClose
  ∧ sendStreamBody writes false = (writes.map chunkedWriterWrite).flatten
  ∧ (res.streamFunc = some (writes, true) →
      sendResponse res
        = (sendHead res ++ ((writes.map chunkedWriterWrite).flatten
            ++ chunkedWriterClose), true))
  ∧ (res.streamFunc = some (writes, false) →
      sendResponse res
        = (sendHead res ++ (writes.map chunkedWriterWrite).flatten, false)) := by
  refine ⟨by simp [sendStreamBody], by simp [sendStreamBody], ?_, ?_⟩
  · intro h
    simp [sendResponse, h, sendStreamBody]
  · intro h
    simp [sendResponse, h, sendStreamBody]

/-- Witness for C7's amended statement at the one-write producers. -/
theorem stream_terminal_chunk_on_success_witness :
    sendResponse streamOkResp
      = (sendHead streamOkResp ++ (([['a']].map chunkedWriterWrite).flatten
          ++ chunkedWriterClose), true)
  ∧ sendResponse streamErrResp
      = (sendHead streamErrResp ++ ([['a']].map chunkedWriterWrite).flatten,
         false) :=
  ⟨(stream_terminal_chunk_on_success [['a']] streamOkResp).2.2.1 (by rfl),
   (stream_terminal_chunk_on_success [['a']] streamErrResp).2.2.2 (by rfl)⟩

end HttpServer
